import Mathlib

/-!
Verification development for the traffic accident detection engine
(`models/sequential_estimators.py` together with the constants of `config.py`).

Python floats are embedded as exact rationals (`ℚ`).  Calls into external
numeric libraries (scipy's Gaussian density, numpy's logarithm, the
statsmodels ARIMA fit, and numpy's random stream) are not part of this
repository; they are modelled as explicit oracle parameters (`ExternalMath`,
and a draw stream `gen : ℕ → ℕ` for `np.random`), so every theorem below is
quantified over all possible behaviours of those libraries.
-/

namespace AccSys

/-! ## Configuration constants (`config.py`, class `Config`) -/

namespace Config

def NORMAL_SPEED_MEAN : ℚ := 60

def NORMAL_SPEED_STD : ℚ := 10

def ACCIDENT_SPEED_MEAN : ℚ := 15

def ACCIDENT_SPEED_STD : ℚ := 5

def CUSUM_THRESHOLD : ℚ := 10

def CUSUM_DRIFT : ℚ := 2

def SPRT_THRESHOLD_UPPER : ℚ := 5

def SPRT_THRESHOLD_LOWER : ℚ := 1/5

def PAGE_HINKLEY_THRESHOLD : ℚ := 8

def PAGE_HINKLEY_DELTA : ℚ := 2

def BUFFER_SIZE : ℕ := 300

def MIN_SAMPLES_FOR_DETECTION : ℕ := 10

def REQUIRE_VOTES : ℕ := 2

end Config

/-! ## Shared helpers -/

/-- Python `x or default` on an optional float argument: `None` and `0.0`
are both falsy, so either selects the default. -/
def pyOr (x : Option ℚ) (d : ℚ) : ℚ :=
  match x with
  | none => d
  | some v => if v = 0 then d else v

/-- Append to a `collections.deque(maxlen=cap)`: the element goes to the
right end and the oldest element is evicted once the capacity is exceeded. -/
def appendCap {α : Type} (cap : ℕ) (l : List α) (x : α) : List α :=
  (l ++ [x]).drop ((l ++ [x]).length - cap)

/-- Python `lst[-n:]`: the last `n` elements (all of them when shorter). -/
def lastN {α : Type} (n : ℕ) (l : List α) : List α :=
  l.drop (l.length - n)

/-- `np.mean` on a list of floats: sum divided by length. -/
def listMean (l : List ℚ) : ℚ :=
  l.sum / (l.length : ℚ)

/-- Python `max(a, b)` (the first argument on ties), written out so that it
evaluates by kernel reduction. -/
def maxQ (a b : ℚ) : ℚ := if a < b then b else a

/-- Python `min(a, b)` (the first argument on ties), written out so that it
evaluates by kernel reduction. -/
def minQ (a b : ℚ) : ℚ := if b < a then b else a

theorem maxQ_eq_max (a b : ℚ) : maxQ a b = max a b := by
  unfold maxQ
  rcases lt_or_ge a b with h | h
  · simp [h, max_eq_right h.le]
  · simp [not_lt.mpr h, max_eq_left h]

theorem minQ_eq_min (a b : ℚ) : minQ a b = min a b := by
  unfold minQ
  rcases lt_or_ge b a with h | h
  · simp [h, min_eq_right h.le]
  · simp [not_lt.mpr h, min_eq_left h]

/-- Python `round(x, 2)` idealised on exact rationals: round half to even
at two decimal places. -/
def roundHalfEven (q : ℚ) : ℤ :=
  let f : ℤ := ⌊q⌋
  let r : ℚ := q - (f : ℚ)
  if r < 1/2 then f
  else if 1/2 < r then f + 1
  else if f % 2 = 0 then f else f + 1

def round2 (q : ℚ) : ℚ :=
  (roundHalfEven (q * 100) : ℚ) / 100

/-! ## External numeric libraries (oracle)

`scipy.stats.norm.pdf`, `np.log` and the statsmodels ARIMA fit/forecast are
library code outside this repository.  They are bundled as an oracle the
whole development is parameterised over; `arimaFit l = none` models the
`except:` path of `ARIMAPredictor.predict` (any exception during fit or
forecast). -/

structure ExternalMath where
  normPdf : ℚ → ℚ → ℚ → ℚ
  log : ℚ → ℚ
  arimaFit : List ℚ → Option ℚ

/-! ## `ARIMAPredictor` -/

structure ARIMAPredictor where
  /-- `deque(maxlen=60)`, chronological order, newest last. -/
  history : List ℚ
  deriving DecidableEq

def ARIMAPredictor.init : ARIMAPredictor := ⟨[]⟩

/-- `ARIMAPredictor.update`: append the observation to the bounded history. -/
def ARIMAPredictor.update (p : ARIMAPredictor) (speed : ℚ) : ARIMAPredictor :=
  ⟨appendCap 60 p.history speed⟩

/-- `ARIMAPredictor.predict`: below 10 retained values return the history
mean (default mean on empty history); otherwise fit ARIMA and forecast one
step, falling back to the mean of the last 10 values when the fit raises. -/
def ARIMAPredictor.predict (ext : ExternalMath) (p : ARIMAPredictor) : ℚ :=
  if p.history.length < 10 then
    if p.history = [] then Config.NORMAL_SPEED_MEAN else listMean p.history
  else
    match ext.arimaFit p.history with
    | some v => v
    | none => listMean (lastN 10 p.history)

/-! ## `CUSUMDetector` -/

structure CUSUMDetector where
  threshold : ℚ
  drift : ℚ
  cusum_stat : ℚ
  baseline : ℚ
  deriving DecidableEq

/-- `CUSUMDetector.__init__(threshold, drift)` after resolving the
`arg or Config.DEFAULT` idiom. -/
def CUSUMDetector.mkNew (threshold? drift? : Option ℚ) : CUSUMDetector :=
  ⟨pyOr threshold? Config.CUSUM_THRESHOLD, pyOr drift? Config.CUSUM_DRIFT,
   0, Config.NORMAL_SPEED_MEAN⟩

/-- The state of a freshly constructed `CUSUMDetector` whose resolved
threshold and drift are the given values. -/
def freshCusum (threshold drift : ℚ) : CUSUMDetector :=
  ⟨threshold, drift, 0, Config.NORMAL_SPEED_MEAN⟩

/-- `CUSUMDetector.update(speed, predicted_speed)`:
residual = speed − predicted; `S := max(0, S − residual − drift)`;
alert iff `S > threshold`.  Returns (new state, S, alert). -/
def CUSUMDetector.update (c : CUSUMDetector) (speed predicted_speed : ℚ) :
    CUSUMDetector × ℚ × Bool :=
  let residual := speed - predicted_speed
  let stat := maxQ 0 (c.cusum_stat - residual - c.drift)
  ({ c with cusum_stat := stat }, stat, decide (c.threshold < stat))

/-- `CUSUMDetector.reset`: zero the running statistic only. -/
def CUSUMDetector.reset (c : CUSUMDetector) : CUSUMDetector :=
  { c with cusum_stat := 0 }

/-! ## `SPRTDetector` -/

structure SPRTDetector where
  threshold_upper : ℚ
  threshold_lower : ℚ
  /-- `log_likelihood_ratio` in the source. -/
  llr : ℚ
  h0_mean : ℚ
  h0_std : ℚ
  h1_mean : ℚ
  h1_std : ℚ
  deriving DecidableEq

inductive SPRTDecision where
  | accident
  | normal
  | cont
  deriving DecidableEq

theorem SPRTDecision.normal_ne_accident :
    SPRTDecision.normal ≠ SPRTDecision.accident := by
  intro h
  exact SPRTDecision.noConfusion h

theorem SPRTDecision.cont_ne_accident :
    SPRTDecision.cont ≠ SPRTDecision.accident := by
  intro h
  exact SPRTDecision.noConfusion h

/-- `SPRTDetector.__init__(threshold_upper, threshold_lower)` after
resolving the `arg or Config.DEFAULT` idiom. -/
def SPRTDetector.mkNew (upper? lower? : Option ℚ) : SPRTDetector :=
  ⟨pyOr upper? Config.SPRT_THRESHOLD_UPPER, pyOr lower? Config.SPRT_THRESHOLD_LOWER,
   0, Config.NORMAL_SPEED_MEAN, Config.NORMAL_SPEED_STD,
   Config.ACCIDENT_SPEED_MEAN, Config.ACCIDENT_SPEED_STD⟩

/-- A `SPRTDetector` with the given configuration and zero statistic, the
state a fresh construction produces for that configuration. -/
def freshSprt (upper lower m0 s0 m1 s1 : ℚ) : SPRTDetector :=
  ⟨upper, lower, 0, m0, s0, m1, s1⟩

/-- `SPRTDetector.update(speed)`: add `log(p_h1 / p_h0)` to the
log-likelihood ratio when the null density is positive, then decide by
comparing with the two thresholds. -/
def SPRTDetector.update (ext : ExternalMath) (s : SPRTDetector) (speed : ℚ) :
    SPRTDetector × ℚ × SPRTDecision :=
  let p_h0 := ext.normPdf speed s.h0_mean s.h0_std
  let p_h1 := ext.normPdf speed s.h1_mean s.h1_std
  let llr2 := if 0 < p_h0 then s.llr + ext.log (p_h1 / p_h0) else s.llr
  let decision :=
    if s.threshold_upper ≤ llr2 then SPRTDecision.accident
    else if llr2 ≤ s.threshold_lower then SPRTDecision.normal
    else SPRTDecision.cont
  ({ s with llr := llr2 }, llr2, decision)

/-- `SPRTDetector.reset`: zero the log-likelihood ratio only. -/
def SPRTDetector.reset (s : SPRTDetector) : SPRTDetector :=
  { s with llr := 0 }

/-! ## `PageHinkleyDetector` -/

structure PageHinkleyDetector where
  threshold : ℚ
  delta : ℚ
  sum_diff : ℚ
  min_sum : ℚ
  baseline : ℚ
  deriving DecidableEq

/-- `PageHinkleyDetector.__init__(threshold, delta)` after resolving the
`arg or Config.DEFAULT` idiom. -/
def PageHinkleyDetector.mkNew (threshold? delta? : Option ℚ) : PageHinkleyDetector :=
  ⟨pyOr threshold? Config.PAGE_HINKLEY_THRESHOLD, pyOr delta? Config.PAGE_HINKLEY_DELTA,
   0, 0, Config.NORMAL_SPEED_MEAN⟩

/-- A `PageHinkleyDetector` with the given configuration and zeroed running
sum and minimum, the state a fresh construction produces (the constructor
always sets the baseline to `Config.NORMAL_SPEED_MEAN`). -/
def freshPh (threshold delta baseline : ℚ) : PageHinkleyDetector :=
  ⟨threshold, delta, 0, 0, baseline⟩

/-- `PageHinkleyDetector.update(speed)`: `diff = baseline − speed − delta`;
`U += diff`; `m = min(m, U)`; `stat = U − m`; alert iff `stat > threshold`. -/
def PageHinkleyDetector.update (d : PageHinkleyDetector) (speed : ℚ) :
    PageHinkleyDetector × ℚ × Bool :=
  let diff := d.baseline - speed - d.delta
  let sum2 := d.sum_diff + diff
  let min2 := minQ d.min_sum sum2
  let stat := sum2 - min2
  ({ d with sum_diff := sum2, min_sum := min2 }, stat, decide (d.threshold < stat))

/-- `PageHinkleyDetector.reset(new_baseline=None)`: zero the running sum and
minimum; `if new_baseline:` rebases only on a truthy (non-`None`, non-zero)
argument. -/
def PageHinkleyDetector.reset (d : PageHinkleyDetector) (new_baseline : Option ℚ) :
    PageHinkleyDetector :=
  { d with
    baseline :=
      match new_baseline with
      | none => d.baseline
      | some v => if v = 0 then d.baseline else v,
    sum_diff := 0, min_sum := 0 }

/-! ## `DetectorSuite` -/

/-- One speed-data dictionary produced by the simulator and consumed by
`process_speed` (the fields the engine reads). -/
structure Obs where
  car_id : String
  speed : ℚ
  timestamp : ℚ
  deriving DecidableEq

/-- Per-car detector bundle (`DetectorSuite.__init__`). -/
structure DetectorSuite where
  car_id : String
  arima : ARIMAPredictor
  cusum : CUSUMDetector
  sprt : SPRTDetector
  page_hinkley : PageHinkleyDetector
  /-- `deque(maxlen=Config.BUFFER_SIZE)` of raw observation dicts. -/
  speed_history : List Obs
  accident_active : Bool
  accident_start_time : Option ℚ
  accident_id : Option String
  deriving DecidableEq

def DetectorSuite.init (car_id : String) : DetectorSuite :=
  ⟨car_id, ARIMAPredictor.init, CUSUMDetector.mkNew none none,
   SPRTDetector.mkNew none none, PageHinkleyDetector.mkNew none none,
   [], false, none, none⟩

/-- `DetectorSuite.reset_detectors`: reset the three sequential detectors
(and nothing else). -/
def DetectorSuite.reset_detectors (s : DetectorSuite) : DetectorSuite :=
  { s with
    cusum := s.cusum.reset,
    sprt := s.sprt.reset,
    page_hinkley := s.page_hinkley.reset none }

/-! ## `AccidentDetector` (the engine) -/

/-- One detection-result dictionary of `process_speed` (`sprt_lr` is the
`sprt_ratio` key of the source). -/
structure Result where
  car_id : String
  timestamp : ℚ
  speed : ℚ
  predicted_speed : ℚ
  cusum_stat : ℚ
  sprt_lr : ℚ
  ph_stat : ℚ
  accident_detected : Bool
  accident_active : Bool
  accident_id : Option String
  confidence : ℚ
  deriving DecidableEq

/-- Lookup in a Python-dict registry modelled as an insertion-ordered
association list. -/
def findSuite (l : List (String × DetectorSuite)) (car_id : String) :
    Option DetectorSuite :=
  match l with
  | [] => none
  | (k, v) :: rest => if k = car_id then some v else findSuite rest car_id

/-- Python-dict assignment `d[k] = v`: replace in place when the key exists,
otherwise append (insertion order preserved). -/
def upsert (l : List (String × DetectorSuite)) (car_id : String)
    (v : DetectorSuite) : List (String × DetectorSuite) :=
  match l with
  | [] => [(car_id, v)]
  | (k, w) :: rest =>
    if k = car_id then (k, v) :: rest else (k, w) :: upsert rest car_id v

/-- Engine state: the `car_id -> DetectorSuite` registry (a Python dict,
modelled as an insertion-ordered association list), plus the position in the
`np.random` draw stream (modelling artefact: the stream itself is the
parameter `gen` below, one draw consumed per Idle-to-Active transition). -/
structure AccidentDetector where
  detectors : List (String × DetectorSuite)
  randIdx : ℕ
  deriving DecidableEq

def AccidentDetector.init : AccidentDetector := ⟨[], 0⟩

/-- `AccidentDetector.get_or_create_suite`. -/
def AccidentDetector.get_or_create_suite (st : AccidentDetector) (car_id : String) :
    DetectorSuite :=
  (findSuite st.detectors car_id).getD (DetectorSuite.init car_id)

/-- The accident token `f"acc_{car_id}_{int(np.random.random() * 1000)}"`;
the draw `r` is reduced modulo 1000 to model `int(np.random.random()*1000)`,
which always lies in `0..999`. -/
def mkToken (car_id : String) (r : ℕ) : String :=
  "acc_" ++ car_id ++ "_" ++ toString (r % 1000)

/-! The body of `process_speed` for a single observation, written as one
named definition per intermediate value of the source. -/

/-- The suite the observation is routed to. -/
def stepSuite0 (st : AccidentDetector) (data : Obs) : DetectorSuite :=
  st.get_or_create_suite data.car_id

/-- `suite.speed_history` right after `suite.speed_history.append(data)`:
the retained history at decision time. -/
def stepHistory (st : AccidentDetector) (data : Obs) : List Obs :=
  appendCap Config.BUFFER_SIZE (stepSuite0 st data).speed_history data

/-- The predictor state after `suite.arima.update(speed)`. -/
def stepArima (st : AccidentDetector) (data : Obs) : ARIMAPredictor :=
  (stepSuite0 st data).arima.update data.speed

/-- `predicted_speed = suite.arima.predict()`. -/
def stepPredicted (ext : ExternalMath) (st : AccidentDetector) (data : Obs) : ℚ :=
  (stepArima st data).predict ext

/-- `suite.cusum.update(speed, predicted_speed)`. -/
def stepCusum (ext : ExternalMath) (st : AccidentDetector) (data : Obs) :
    CUSUMDetector × ℚ × Bool :=
  (stepSuite0 st data).cusum.update data.speed (stepPredicted ext st data)

/-- `suite.sprt.update(speed)`. -/
def stepSprt (ext : ExternalMath) (st : AccidentDetector) (data : Obs) :
    SPRTDetector × ℚ × SPRTDecision :=
  (stepSuite0 st data).sprt.update ext data.speed

/-- `suite.page_hinkley.update(speed)`. -/
def stepPh (st : AccidentDetector) (data : Obs) : PageHinkleyDetector × ℚ × Bool :=
  (stepSuite0 st data).page_hinkley.update data.speed

/-- `vote_count = sum([cusum_alert, sprt_decision == 'accident', ph_alert])`. -/
def stepVotes (ext : ExternalMath) (st : AccidentDetector) (data : Obs) : ℕ :=
  (if (stepCusum ext st data).2.2 then 1 else 0) +
  (if (stepSprt ext st data).2.2 = SPRTDecision.accident then 1 else 0) +
  (if (stepPh st data).2.2 then 1 else 0)

/-- `accident_detected = bool(has_enough_data and vote_count >= REQUIRE_VOTES)`
with `has_enough_data = len(suite.speed_history) >= MIN_SAMPLES_FOR_DETECTION`. -/
def stepDetected (ext : ExternalMath) (st : AccidentDetector) (data : Obs) : Bool :=
  decide (Config.MIN_SAMPLES_FOR_DETECTION ≤ (stepHistory st data).length) &&
  decide (Config.REQUIRE_VOTES ≤ stepVotes ext st data)

/-- `recent_speeds = [d['speed'] for d in list(suite.speed_history)[-5:]]`. -/
def stepRecent (st : AccidentDetector) (data : Obs) : List ℚ :=
  (lastN 5 (stepHistory st data)).map Obs.speed

/-- The suite with history, predictor and the three detectors updated,
before the lifecycle branch runs. -/
def stepSuite1 (ext : ExternalMath) (st : AccidentDetector) (data : Obs) :
    DetectorSuite :=
  { stepSuite0 st data with
    arima := stepArima st data,
    cusum := (stepCusum ext st data).1,
    sprt := (stepSprt ext st data).1,
    page_hinkley := (stepPh st data).1,
    speed_history := stepHistory st data }

/-- The lifecycle branch of `process_speed`: Idle-to-Active activation
(minting a token from the next random draw), Active-to-Idle clearance
(guarded by the recent-speed recovery check), or no transition.  Returns the
final suite together with the updated draw-stream position. -/
def stepSuite2 (ext : ExternalMath) (gen : ℕ → ℕ) (st : AccidentDetector)
    (data : Obs) : DetectorSuite × ℕ :=
  if stepDetected ext st data && !(stepSuite0 st data).accident_active then
    ({ stepSuite1 ext st data with
       accident_active := true,
       accident_start_time := some data.timestamp,
       accident_id := some (mkToken data.car_id (gen st.randIdx)) },
     st.randIdx + 1)
  else if !(stepDetected ext st data) && (stepSuite0 st data).accident_active then
    if decide (5 ≤ (stepRecent st data).length) &&
       decide (40 < listMean (stepRecent st data)) then
      (({ stepSuite1 ext st data with accident_active := false }).reset_detectors,
       st.randIdx)
    else (stepSuite1 ext st data, st.randIdx)
  else (stepSuite1 ext st data, st.randIdx)

/-- `AccidentDetector.process_speed` restricted to one incoming observation:
the full per-observation pipeline, returning the new engine state and the
result record appended to `results`. -/
def AccidentDetector.processOne (ext : ExternalMath) (gen : ℕ → ℕ)
    (st : AccidentDetector) (data : Obs) : AccidentDetector × Result :=
  let s2 := stepSuite2 ext gen st data
  ({ detectors := upsert st.detectors data.car_id s2.1,
     randIdx := s2.2 },
   { car_id := data.car_id,
     timestamp := data.timestamp,
     speed := data.speed,
     predicted_speed := round2 (stepPredicted ext st data),
     cusum_stat := round2 (stepCusum ext st data).2.1,
     sprt_lr := round2 (stepSprt ext st data).2.1,
     ph_stat := round2 (stepPh st data).2.1,
     accident_detected := stepDetected ext st data,
     accident_active := s2.1.accident_active,
     accident_id := s2.1.accident_id,
     confidence := round2 ((stepVotes ext st data : ℚ) / 3) })

/-- `AccidentDetector.process_speed` on a batch (list) of observations. -/
def AccidentDetector.process_speed (ext : ExternalMath) (gen : ℕ → ℕ) :
    AccidentDetector → List Obs → AccidentDetector × List Result
  | st, [] => (st, [])
  | st, data :: rest =>
    let p := st.processOne ext gen data
    let q := AccidentDetector.process_speed ext gen p.1 rest
    (q.1, p.2 :: q.2)

/-- `AccidentDetector.reset_car`: force the car back to Idle and reset its
three detectors; a no-op for an unknown car. -/
def AccidentDetector.reset_car (st : AccidentDetector) (car_id : String) :
    AccidentDetector :=
  match findSuite st.detectors car_id with
  | none => st
  | some suite =>
    let suite2 := ({ suite with accident_active := false }).reset_detectors
    { st with detectors := upsert st.detectors car_id suite2 }

/-- `AccidentDetector.reset_all`: force every known car back to Idle and
reset its three detectors. -/
def AccidentDetector.reset_all (st : AccidentDetector) : AccidentDetector :=
  { st with detectors :=
      st.detectors.map fun kv =>
        (kv.1, ({ kv.2 with accident_active := false }).reset_detectors) }

/-! ## Driving a single detector over an input sequence

Each run function feeds a list of inputs to one detector and collects the
(statistic, alert) pairs the source's `update` returns, for the claims about
whole input sequences. -/

def cusumRunOut : CUSUMDetector → List (ℚ × ℚ) → CUSUMDetector × List (ℚ × Bool)
  | c, [] => (c, [])
  | c, p :: rest =>
    let u := c.update p.1 p.2
    let r := cusumRunOut u.1 rest
    (r.1, u.2 :: r.2)

def sprtRunOut (ext : ExternalMath) :
    SPRTDetector → List ℚ → SPRTDetector × List (ℚ × SPRTDecision)
  | s, [] => (s, [])
  | s, x :: rest =>
    let u := s.update ext x
    let r := sprtRunOut ext u.1 rest
    (r.1, u.2 :: r.2)

def phRunOut : PageHinkleyDetector → List ℚ → PageHinkleyDetector × List (ℚ × Bool)
  | d, [] => (d, [])
  | d, x :: rest =>
    let u := d.update x
    let r := phRunOut u.1 rest
    (r.1, u.2 :: r.2)

/-! ## Claims C6 and C7: detector statistic invariants -/

theorem cusum_update_stat_nonneg (c : CUSUMDetector) (speed predicted : ℚ) :
    0 ≤ (c.update speed predicted).2.1 := by
  show (0:ℚ) ≤ maxQ 0 _
  rw [maxQ_eq_max]
  exact le_max_left 0 _

/-- C6: every `CUSUMDetector.update` computes
`S = max(0, S_prev − (observed − predicted) − drift)`, the post-state carries
exactly that statistic, and the returned statistic is non-negative — hence it
is non-negative after every update of every input sequence (third conjunct,
over the collected outputs of an arbitrary run). -/
theorem C6_cusum_recurrence_nonneg :
    (∀ (c : CUSUMDetector) (speed predicted : ℚ),
      (c.update speed predicted).2.1 =
        max 0 (c.cusum_stat - (speed - predicted) - c.drift) ∧
      (c.update speed predicted).1.cusum_stat = (c.update speed predicted).2.1 ∧
      0 ≤ (c.update speed predicted).2.1) ∧
    (∀ (c : CUSUMDetector) (l : List (ℚ × ℚ)),
      ((cusumRunOut c l).2.all fun o => decide (0 ≤ o.1)) = true) := by
  constructor
  · intro c speed predicted
    refine ⟨?_, rfl, cusum_update_stat_nonneg c speed predicted⟩
    show maxQ 0 _ = _
    rw [maxQ_eq_max]
  · intro c l
    induction l generalizing c with
    | nil => rfl
    | cons p rest ih =>
      simp only [cusumRunOut, List.all_cons, Bool.and_eq_true, decide_eq_true_eq]
      exact ⟨cusum_update_stat_nonneg c p.1 p.2, ih _⟩

theorem ph_update_stat_nonneg (d : PageHinkleyDetector) (speed : ℚ) :
    0 ≤ (d.update speed).2.1 := by
  show (0:ℚ) ≤ _ - minQ _ _
  rw [minQ_eq_min, sub_nonneg]
  exact min_le_right _ _

/-- C7: every `PageHinkleyDetector.update` returns
`stat = U − m` where `U` is the new cumulative sum and `m` the running
minimum of `U` (updated with the current `U` first), and that statistic is
non-negative after every update of every input sequence (final conjunct,
over the collected outputs of an arbitrary run). -/
theorem C7_ph_stat_nonneg :
    (∀ (d : PageHinkleyDetector) (speed : ℚ),
      (d.update speed).1.sum_diff = d.sum_diff + (d.baseline - speed - d.delta) ∧
      (d.update speed).1.min_sum =
        min d.min_sum (d.sum_diff + (d.baseline - speed - d.delta)) ∧
      (d.update speed).2.1 = (d.update speed).1.sum_diff - (d.update speed).1.min_sum ∧
      0 ≤ (d.update speed).2.1) ∧
    (∀ (d : PageHinkleyDetector) (l : List ℚ),
      ((phRunOut d l).2.all fun o => decide (0 ≤ o.1)) = true) := by
  constructor
  · intro d speed
    refine ⟨rfl, ?_, rfl, ph_update_stat_nonneg d speed⟩
    show minQ _ _ = min _ _
    rw [minQ_eq_min]
  · intro d l
    induction l generalizing d with
    | nil => rfl
    | cons x rest ih =>
      simp only [phRunOut, List.all_cons, Bool.and_eq_true, decide_eq_true_eq]
      exact ⟨ph_update_stat_nonneg d x, ih _⟩

/-! ## Claim C8: the predictor is total, with the documented fallbacks -/

/-- C8: `ARIMAPredictor.predict` is a total function (it returns a value on
every history and every behaviour of the external fit, the `except:` path
being the oracle's `none`): on empty history it returns the configured
normal-speed mean; below 10 retained values it returns the arithmetic mean
of the history; from 10 values on, when the ARIMA fit fails it returns the
mean of the last 10 retained values. -/
theorem C8_predict_total_fallbacks (ext : ExternalMath) (p : ARIMAPredictor) :
    (p.history = [] → p.predict ext = Config.NORMAL_SPEED_MEAN) ∧
    (p.history ≠ [] → p.history.length < 10 → p.predict ext = listMean p.history) ∧
    (10 ≤ p.history.length → ext.arimaFit p.history = none →
      p.predict ext = listMean (lastN 10 p.history)) := by
  refine ⟨?_, ?_, ?_⟩
  · intro h
    simp [ARIMAPredictor.predict, h]
  · intro h hlen
    simp [ARIMAPredictor.predict, h, hlen]
  · intro hlen hfit
    have : ¬ p.history.length < 10 := by omega
    simp [ARIMAPredictor.predict, this, hfit]

/-! ## Claim C9: detector reset semantics -/

theorem cusumRunOut_config_eq (lc : List (ℚ × ℚ)) :
    ∀ (c c' : CUSUMDetector), c.threshold = c'.threshold → c.drift = c'.drift →
      c.cusum_stat = c'.cusum_stat →
      (cusumRunOut c lc).2 = (cusumRunOut c' lc).2 := by
  induction lc with
  | nil => intro c c' _ _ _; rfl
  | cons p rest ih =>
    intro c c' ht hd hs
    have h1 : (c.update p.1 p.2).2 = (c'.update p.1 p.2).2 := by
      simp [CUSUMDetector.update, ht, hd, hs]
    have h2 := ih (c.update p.1 p.2).1 (c'.update p.1 p.2).1
      (by simp [CUSUMDetector.update, ht])
      (by simp [CUSUMDetector.update, hd])
      (by simp [CUSUMDetector.update, ht, hd, hs])
    simp only [cusumRunOut, h1, h2]

/-- C9: on each of the three detectors, `reset()` (with no new baseline for
Page-Hinkley) zeroes exactly the running statistic, leaves the configured
thresholds, drift, delta, baseline and hypothesis parameters unchanged, is
idempotent, and the reset detector produces on every subsequent input
sequence the same outputs as a freshly constructed detector with the same
resolved configuration (`freshCusum` / `freshSprt` / `freshPh` are the
respective post-`__init__` states). -/
theorem C9_reset_is_fresh (c : CUSUMDetector) (s : SPRTDetector)
    (d : PageHinkleyDetector) (ext : ExternalMath)
    (lc : List (ℚ × ℚ)) (ls lp : List ℚ) :
    (c.reset.cusum_stat = 0 ∧ c.reset.threshold = c.threshold ∧
      c.reset.drift = c.drift ∧ c.reset.reset = c.reset ∧
      (cusumRunOut c.reset lc).2 =
        (cusumRunOut (freshCusum c.threshold c.drift) lc).2) ∧
    (s.reset.llr = 0 ∧ s.reset.threshold_upper = s.threshold_upper ∧
      s.reset.threshold_lower = s.threshold_lower ∧
      s.reset.h0_mean = s.h0_mean ∧ s.reset.h0_std = s.h0_std ∧
      s.reset.h1_mean = s.h1_mean ∧ s.reset.h1_std = s.h1_std ∧
      s.reset.reset = s.reset ∧
      sprtRunOut ext s.reset ls =
        sprtRunOut ext (freshSprt s.threshold_upper s.threshold_lower
          s.h0_mean s.h0_std s.h1_mean s.h1_std) ls) ∧
    ((d.reset none).sum_diff = 0 ∧ (d.reset none).min_sum = 0 ∧
      (d.reset none).threshold = d.threshold ∧ (d.reset none).delta = d.delta ∧
      (d.reset none).baseline = d.baseline ∧
      (d.reset none).reset none = d.reset none ∧
      phRunOut (d.reset none) lp = phRunOut (freshPh d.threshold d.delta d.baseline) lp) := by
  refine ⟨⟨rfl, rfl, rfl, rfl, ?_⟩, ⟨rfl, rfl, rfl, rfl, rfl, rfl, rfl, rfl, rfl⟩,
    ⟨rfl, rfl, rfl, rfl, rfl, rfl, rfl⟩⟩
  exact cusumRunOut_config_eq lc c.reset (freshCusum c.threshold c.drift) rfl rfl rfl

/-! ## Engine helper lemmas -/

theorem findSuite_upsert (l : List (String × DetectorSuite)) (k : String)
    (v : DetectorSuite) : findSuite (upsert l k v) k = some v := by
  induction l with
  | nil => simp [upsert, findSuite]
  | cons kv rest ih =>
    by_cases h : kv.1 = k
    · simp [upsert, findSuite, h]
    · simp [upsert, findSuite, h, ih]

theorem findSuite_upsert_other (l : List (String × DetectorSuite)) (k other : String)
    (v : DetectorSuite) (h : other ≠ k) :
    findSuite (upsert l k v) other = findSuite l other := by
  induction l with
  | nil => simp [upsert, findSuite, Ne.symm h]
  | cons kv rest ih =>
    by_cases hk : kv.1 = k
    · subst hk
      simp [upsert, findSuite, Ne.symm h]
    · by_cases ho : kv.1 = other
      · simp [upsert, findSuite, hk, ho, h]
      · simp [upsert, findSuite, hk, ho, ih]

/-- The suite stored for the processed car after one `process_speed` step. -/
def postSuite (ext : ExternalMath) (gen : ℕ → ℕ) (st : AccidentDetector)
    (data : Obs) : DetectorSuite :=
  (st.processOne ext gen data).1.get_or_create_suite data.car_id

theorem postSuite_eq (ext : ExternalMath) (gen : ℕ → ℕ) (st : AccidentDetector)
    (data : Obs) : postSuite ext gen st data = (stepSuite2 ext gen st data).1 := by
  simp only [postSuite, AccidentDetector.processOne,
    AccidentDetector.get_or_create_suite, findSuite_upsert, Option.getD_some]

theorem processOne_detected (ext : ExternalMath) (gen : ℕ → ℕ)
    (st : AccidentDetector) (data : Obs) :
    (st.processOne ext gen data).2.accident_detected = stepDetected ext st data := by
  simp only [AccidentDetector.processOne]

theorem processOne_result_id (ext : ExternalMath) (gen : ℕ → ℕ)
    (st : AccidentDetector) (data : Obs) :
    (st.processOne ext gen data).2.accident_id =
      (stepSuite2 ext gen st data).1.accident_id := by
  simp only [AccidentDetector.processOne]

theorem processOne_randIdx (ext : ExternalMath) (gen : ℕ → ℕ)
    (st : AccidentDetector) (data : Obs) :
    (st.processOne ext gen data).1.randIdx = (stepSuite2 ext gen st data).2 := by
  simp only [AccidentDetector.processOne]

theorem stepSuite1_active (ext : ExternalMath) (st : AccidentDetector) (data : Obs) :
    (stepSuite1 ext st data).accident_active = (stepSuite0 st data).accident_active := rfl

theorem stepSuite2_activation (ext : ExternalMath) (gen : ℕ → ℕ)
    (st : AccidentDetector) (data : Obs)
    (h1 : stepDetected ext st data = true)
    (h2 : (stepSuite0 st data).accident_active = false) :
    stepSuite2 ext gen st data =
      ({ stepSuite1 ext st data with
         accident_active := true,
         accident_start_time := some data.timestamp,
         accident_id := some (mkToken data.car_id (gen st.randIdx)) },
       st.randIdx + 1) := by
  simp [stepSuite2, h1, h2]

theorem stepSuite2_active_detected (ext : ExternalMath) (gen : ℕ → ℕ)
    (st : AccidentDetector) (data : Obs)
    (h1 : stepDetected ext st data = true)
    (h2 : (stepSuite0 st data).accident_active = true) :
    stepSuite2 ext gen st data = (stepSuite1 ext st data, st.randIdx) := by
  simp [stepSuite2, h1, h2]

theorem stepSuite2_idle_quiet (ext : ExternalMath) (gen : ℕ → ℕ)
    (st : AccidentDetector) (data : Obs)
    (h1 : stepDetected ext st data = false)
    (h2 : (stepSuite0 st data).accident_active = false) :
    stepSuite2 ext gen st data = (stepSuite1 ext st data, st.randIdx) := by
  simp [stepSuite2, h1, h2]

theorem stepSuite2_clearance (ext : ExternalMath) (gen : ℕ → ℕ)
    (st : AccidentDetector) (data : Obs)
    (h1 : stepDetected ext st data = false)
    (h2 : (stepSuite0 st data).accident_active = true)
    (h3 : (decide (5 ≤ (stepRecent st data).length) &&
           decide (40 < listMean (stepRecent st data))) = true) :
    stepSuite2 ext gen st data =
      (({ stepSuite1 ext st data with accident_active := false }).reset_detectors,
       st.randIdx) := by
  simp only [stepSuite2, h1, h2]
  simp [h3]

theorem stepSuite2_no_clearance (ext : ExternalMath) (gen : ℕ → ℕ)
    (st : AccidentDetector) (data : Obs)
    (h1 : stepDetected ext st data = false)
    (h2 : (stepSuite0 st data).accident_active = true)
    (h3 : (decide (5 ≤ (stepRecent st data).length) &&
           decide (40 < listMean (stepRecent st data))) = false) :
    stepSuite2 ext gen st data = (stepSuite1 ext st data, st.randIdx) := by
  simp only [stepSuite2, h1, h2]
  simp [h3]

/-- When a step of `process_speed` moves an Active entity to Idle, the vote
decision was negative and the recovery guard held. -/
theorem clearance_case (ext : ExternalMath) (gen : ℕ → ℕ)
    (st : AccidentDetector) (data : Obs)
    (hact : (stepSuite0 st data).accident_active = true)
    (hpost : (postSuite ext gen st data).accident_active = false) :
    stepDetected ext st data = false ∧
    (decide (5 ≤ (stepRecent st data).length) &&
      decide (40 < listMean (stepRecent st data))) = true ∧
    stepSuite2 ext gen st data =
      (({ stepSuite1 ext st data with accident_active := false }).reset_detectors,
       st.randIdx) := by
  rw [postSuite_eq] at hpost
  cases hdet : stepDetected ext st data with
  | true =>
    simp only [stepSuite2_active_detected ext gen st data hdet hact] at hpost
    rw [stepSuite1_active, hact] at hpost
    exact absurd hpost (by simp)
  | false =>
    cases hguard : (decide (5 ≤ (stepRecent st data).length) &&
        decide (40 < listMean (stepRecent st data))) with
    | false =>
      simp only [stepSuite2_no_clearance ext gen st data hdet hact hguard] at hpost
      rw [stepSuite1_active, hact] at hpost
      exact absurd hpost (by simp)
    | true =>
      exact ⟨rfl, rfl, stepSuite2_clearance ext gen st data hdet hact hguard⟩

/-! ## Claim C1: warm-up forces the decision to false -/

/-- C1: for every entity, engine state, random stream, external-library
behaviour and incoming observation, while the retained speed history at
decision time (the bounded buffer right after the observation is appended)
is shorter than `MIN_SAMPLES_FOR_DETECTION`, the `accident_detected` field
of the produced `DetectionResult` is `false`, whatever the three detectors
voted. -/
theorem C1_warmup_forces_false (ext : ExternalMath) (gen : ℕ → ℕ)
    (st : AccidentDetector) (data : Obs)
    (h : (stepHistory st data).length < Config.MIN_SAMPLES_FOR_DETECTION) :
    (st.processOne ext gen data).2.accident_detected = false := by
  rw [processOne_detected]
  have hn : ¬ (Config.MIN_SAMPLES_FOR_DETECTION ≤ (stepHistory st data).length) :=
    Nat.not_le.mpr h
  simp [stepDetected, hn]

/-! ## Claim C2 (amended): the minted token is the next random draw -/

/-- C2 (amended): every Idle-to-Active transition of `process_speed` mints
the token `acc_<car_id>_<r % 1000>` from the next unconsumed draw `r` of the
random stream and advances the stream position; the token is a fresh draw
but NOT guaranteed distinct from earlier tokens of the same entity (see the
counterexample, where a repeated draw reproduces an earlier token). -/
theorem C2_amended_minted_token (ext : ExternalMath) (gen : ℕ → ℕ)
    (st : AccidentDetector) (data : Obs)
    (hdet : (st.processOne ext gen data).2.accident_detected = true)
    (hidle : (stepSuite0 st data).accident_active = false) :
    (st.processOne ext gen data).2.accident_id =
      some (mkToken data.car_id (gen st.randIdx)) ∧
    (postSuite ext gen st data).accident_id =
      some (mkToken data.car_id (gen st.randIdx)) ∧
    (st.processOne ext gen data).1.randIdx = st.randIdx + 1 := by
  rw [processOne_detected] at hdet
  have h := stepSuite2_activation ext gen st data hdet hidle
  refine ⟨?_, ?_, ?_⟩
  · rw [processOne_result_id, h]
  · rw [postSuite_eq, h]
  · rw [processOne_randIdx, h]

/-! ## Claim C4: the clearance guard -/

/-- C4: a step of `process_speed` moves an entity from Active to Idle only
when the entity has at least 5 retained observations, the current
observation's `accident_detected` is false, and the arithmetic mean of the
5 most recent observed speeds exceeds the recovery threshold 40 (in
particular the transition never fires on fewer than 5 retained
observations). -/
theorem C4_clearance_guard (ext : ExternalMath) (gen : ℕ → ℕ)
    (st : AccidentDetector) (data : Obs)
    (hact : (stepSuite0 st data).accident_active = true)
    (hpost : (postSuite ext gen st data).accident_active = false) :
    5 ≤ (stepHistory st data).length ∧
    (st.processOne ext gen data).2.accident_detected = false ∧
    40 < listMean (stepRecent st data) := by
  obtain ⟨hdet, hguard, _⟩ := clearance_case ext gen st data hact hpost
  simp only [Bool.and_eq_true, decide_eq_true_eq] at hguard
  obtain ⟨h5, hmean⟩ := hguard
  refine ⟨?_, by rw [processOne_detected]; exact hdet, hmean⟩
  have hlen : (stepRecent st data).length =
      (stepHistory st data).length - ((stepHistory st data).length - 5) := by
    simp [stepRecent, lastN]
  omega

/-! ## Claim C5: clearance resets the three detectors, retains history -/

/-- C5: whenever the Active-to-Idle clearance fires in a `process_speed`
step, the post-state of that same step has CUSUM statistic, SPRT
log-likelihood ratio, and Page-Hinkley running sum and running minimum all
equal to 0, while the speed-history buffer and the predictor history are
exactly the updated buffers of that step (the prior contents with the
current observation appended — the clearance clears neither). -/
theorem C5_clearance_resets_detectors (ext : ExternalMath) (gen : ℕ → ℕ)
    (st : AccidentDetector) (data : Obs)
    (hact : (stepSuite0 st data).accident_active = true)
    (hpost : (postSuite ext gen st data).accident_active = false) :
    (postSuite ext gen st data).cusum.cusum_stat = 0 ∧
    (postSuite ext gen st data).sprt.llr = 0 ∧
    (postSuite ext gen st data).page_hinkley.sum_diff = 0 ∧
    (postSuite ext gen st data).page_hinkley.min_sum = 0 ∧
    (postSuite ext gen st data).speed_history = stepHistory st data ∧
    (postSuite ext gen st data).arima = stepArima st data := by
  obtain ⟨_, _, h2⟩ := clearance_case ext gen st data hact hpost
  rw [postSuite_eq, h2]
  refine ⟨?_, ?_, ?_, ?_, ?_, ?_⟩ <;>
    simp [DetectorSuite.reset_detectors, CUSUMDetector.reset,
      SPRTDetector.reset, PageHinkleyDetector.reset, stepSuite1]

/-! ## Claim C10: tokens and start timestamps survive clearance and resets -/

/-- C10: the produced result always carries the currently stored token;
any step that is not an Idle-to-Active transition (in particular every
Active-to-Idle clearance step) leaves the stored accident token and start
timestamp unchanged; and the administrative `reset_car` and `reset_all`
preserve every entity's stored token and start timestamp while forcing it
Idle. -/
theorem C10_token_survives (ext : ExternalMath) (gen : ℕ → ℕ)
    (st : AccidentDetector) (data : Obs) :
    ((st.processOne ext gen data).2.accident_id =
      (postSuite ext gen st data).accident_id) ∧
    (¬(stepDetected ext st data = true ∧
        (stepSuite0 st data).accident_active = false) →
      (postSuite ext gen st data).accident_id = (stepSuite0 st data).accident_id ∧
      (postSuite ext gen st data).accident_start_time =
        (stepSuite0 st data).accident_start_time) ∧
    (∀ (st' : AccidentDetector) (id : String) (suite : DetectorSuite),
      findSuite st'.detectors id = some suite →
      (findSuite (st'.reset_car id).detectors id).map DetectorSuite.accident_id =
        some suite.accident_id ∧
      (findSuite (st'.reset_car id).detectors id).map DetectorSuite.accident_start_time =
        some suite.accident_start_time) ∧
    (∀ st' : AccidentDetector,
      (st'.reset_all).detectors.map
          (fun kv => (kv.1, kv.2.accident_id, kv.2.accident_start_time)) =
        st'.detectors.map
          (fun kv => (kv.1, kv.2.accident_id, kv.2.accident_start_time))) := by
  refine ⟨?_, ?_, ?_, ?_⟩
  · rw [processOne_result_id, postSuite_eq]
  · intro hno
    rw [postSuite_eq]
    cases hdet : stepDetected ext st data with
    | true =>
      cases hactv : (stepSuite0 st data).accident_active with
      | false => exact absurd ⟨hdet, hactv⟩ hno
      | true =>
        simp only [stepSuite2_active_detected ext gen st data hdet hactv]
        exact ⟨rfl, rfl⟩
    | false =>
      cases hactv : (stepSuite0 st data).accident_active with
      | false =>
        simp only [stepSuite2_idle_quiet ext gen st data hdet hactv]
        exact ⟨rfl, rfl⟩
      | true =>
        cases hguard : (decide (5 ≤ (stepRecent st data).length) &&
            decide (40 < listMean (stepRecent st data))) with
        | false =>
          simp only [stepSuite2_no_clearance ext gen st data hdet hactv hguard]
          exact ⟨rfl, rfl⟩
        | true =>
          simp only [stepSuite2_clearance ext gen st data hdet hactv hguard]
          exact ⟨rfl, rfl⟩
  · intro st' id suite hfind
    unfold AccidentDetector.reset_car
    rw [hfind]
    simp only [findSuite_upsert, Option.map_some]
    exact ⟨rfl, rfl⟩
  · intro st'
    simp only [AccidentDetector.reset_all, List.map_map]
    rfl

/-! ## Claim C3 (amended): `reset_car` resets lifecycle and detectors only -/

/-- C3 (amended): `reset_car(id)` forces `accident_active` to false and
resets the three detector statistics of the stored suite, but retains the
entity's speed-history buffer, predictor state, accident token and start
timestamp, and leaves every other entity untouched; therefore a reset
entity does NOT behave like a never-before-seen entity (see the
counterexample, where the first post-reset prediction still uses the
retained history). -/
theorem C3_amended_reset_car (st : AccidentDetector) (id : String)
    (suite : DetectorSuite)
    (h : findSuite st.detectors id = some suite) :
    findSuite (st.reset_car id).detectors id =
      some (({ suite with accident_active := false }).reset_detectors) ∧
    (({ suite with accident_active := false }).reset_detectors).speed_history =
      suite.speed_history ∧
    (({ suite with accident_active := false }).reset_detectors).arima = suite.arima ∧
    (({ suite with accident_active := false }).reset_detectors).accident_id =
      suite.accident_id ∧
    (({ suite with accident_active := false }).reset_detectors).accident_start_time =
      suite.accident_start_time ∧
    ∀ other : String, other ≠ id →
      findSuite (st.reset_car id).detectors other = findSuite st.detectors other := by
  refine ⟨?_, rfl, rfl, rfl, rfl, ?_⟩
  · unfold AccidentDetector.reset_car
    rw [h]
    exact findSuite_upsert _ _ _
  · intro other hne
    unfold AccidentDetector.reset_car
    rw [h]
    exact findSuite_upsert_other _ _ _ _ hne

/-! ## Concrete scenario

A single car "a" observed for 12 ticks: 9 ticks at the normal speed 60, one
at 0 (activation), one at 1000 (vote drop-out and recovery, hence
clearance), one more at 0 (re-activation).  The external libraries are
instantiated with a constant Gaussian density 1, `log 1`-style zero
log-ratio, and a constant ARIMA forecast of 60; the random stream always
draws 5, which `np.random.random` can legitimately do twice in a row. -/

def c2Ext : ExternalMath := ⟨fun _ _ _ => 1, fun _ => 0, fun _ => some 60⟩

def c2Gen : ℕ → ℕ := fun _ => 5

/-- Observation of car "a" with the given speed and timestamp. -/
def c2o (speed timestamp : ℚ) : Obs := ⟨"a", speed, timestamp⟩

def c2Obs : List Obs :=
  [c2o 60 0, c2o 60 1, c2o 60 2, c2o 60 3, c2o 60 4, c2o 60 5, c2o 60 6,
   c2o 60 7, c2o 60 8, c2o 0 9, c2o 1000 10, c2o 0 11]

/-- Engine state of car "a" after `k` warm-up observations at speed 60
(`k ≤ 9`): detectors quiet, Page-Hinkley sum and minimum at `−2k`. -/
def c2WarmSuite (k : ℕ) : DetectorSuite :=
  ⟨"a", ⟨List.replicate k 60⟩, ⟨10, 2, 0, 60⟩, ⟨5, 1/5, 0, 60, 10, 15, 5⟩,
   ⟨8, 2, -(2 * (k : ℚ)), -(2 * (k : ℚ)), 60⟩, c2Obs.take k, false, none, none⟩

def c2WarmSt (k : ℕ) : AccidentDetector := ⟨[("a", c2WarmSuite k)], 0⟩

def c2WarmRes (k : ℕ) : Result :=
  ⟨"a", (k : ℚ), 60, 60, 0, 0, 0, false, false, none, 0⟩

/-- State after the activation step (observation 10, speed 0). -/
def c2SuiteA : DetectorSuite :=
  ⟨"a", ⟨List.replicate 9 60 ++ [0]⟩, ⟨10, 2, 58, 60⟩, ⟨5, 1/5, 0, 60, 10, 15, 5⟩,
   ⟨8, 2, 40, -18, 60⟩, c2Obs.take 10, true, some 9, some (mkToken "a" 5)⟩

def c2StA : AccidentDetector := ⟨[("a", c2SuiteA)], 1⟩

def c2ResA : Result :=
  ⟨"a", 9, 0, 60, 58, 0, 58, true, true, some (mkToken "a" 5), 67/100⟩

/-- State after the clearance step (observation 11, speed 1000). -/
def c2SuiteB : DetectorSuite :=
  ⟨"a", ⟨List.replicate 9 60 ++ [0, 1000]⟩, ⟨10, 2, 0, 60⟩, ⟨5, 1/5, 0, 60, 10, 15, 5⟩,
   ⟨8, 2, 0, 0, 60⟩, c2Obs.take 11, false, some 9, some (mkToken "a" 5)⟩

def c2StB : AccidentDetector := ⟨[("a", c2SuiteB)], 1⟩

def c2ResB : Result :=
  ⟨"a", 10, 1000, 60, 0, 0, 0, false, false, some (mkToken "a" 5), 0⟩

/-- State after the second activation step (observation 12, speed 0): the
token is minted from the repeated draw 5 and equals the first token. -/
def c2SuiteC : DetectorSuite :=
  ⟨"a", ⟨List.replicate 9 60 ++ [0, 1000, 0]⟩, ⟨10, 2, 58, 60⟩, ⟨5, 1/5, 0, 60, 10, 15, 5⟩,
   ⟨8, 2, 58, 0, 60⟩, c2Obs.take 12, true, some 11, some (mkToken "a" 5)⟩

def c2StC : AccidentDetector := ⟨[("a", c2SuiteC)], 2⟩

def c2ResC : Result :=
  ⟨"a", 11, 0, 60, 58, 0, 58, true, true, some (mkToken "a" 5), 67/100⟩

theorem c2_step0 :
    AccidentDetector.init.processOne c2Ext c2Gen (c2o 60 0) =
      (c2WarmSt 1, c2WarmRes 0) := by
  norm_num [AccidentDetector.processOne, stepSuite2, stepSuite1, stepSuite0,
    stepDetected, stepVotes, stepCusum, stepSprt, stepPh, stepArima,
    stepPredicted, stepHistory, stepRecent, AccidentDetector.get_or_create_suite,
    AccidentDetector.init, DetectorSuite.init, DetectorSuite.reset_detectors,
    CUSUMDetector.mkNew, SPRTDetector.mkNew, PageHinkleyDetector.mkNew,
    CUSUMDetector.update, SPRTDetector.update, PageHinkleyDetector.update,
    CUSUMDetector.reset, SPRTDetector.reset, PageHinkleyDetector.reset,
    ARIMAPredictor.update, ARIMAPredictor.predict, ARIMAPredictor.init,
    appendCap, lastN, List.replicate, List.cons_ne_nil, listMean, maxQ, minQ, pyOr, findSuite, upsert,
    round2, roundHalfEven, SPRTDecision.normal_ne_accident,
    SPRTDecision.cont_ne_accident, c2Ext, c2Gen, c2o, c2Obs,
    c2WarmSuite, c2WarmSt, c2WarmRes, Config.NORMAL_SPEED_MEAN,
    Config.CUSUM_THRESHOLD, Config.CUSUM_DRIFT, Config.SPRT_THRESHOLD_UPPER,
    Config.SPRT_THRESHOLD_LOWER, Config.NORMAL_SPEED_STD,
    Config.ACCIDENT_SPEED_MEAN, Config.ACCIDENT_SPEED_STD,
    Config.PAGE_HINKLEY_THRESHOLD, Config.PAGE_HINKLEY_DELTA,
    Config.BUFFER_SIZE, Config.MIN_SAMPLES_FOR_DETECTION, Config.REQUIRE_VOTES]

theorem c2_step1 :
    (c2WarmSt 1).processOne c2Ext c2Gen (c2o 60 1) =
      (c2WarmSt 2, c2WarmRes 1) := by
  norm_num [AccidentDetector.processOne, stepSuite2, stepSuite1, stepSuite0,
    stepDetected, stepVotes, stepCusum, stepSprt, stepPh, stepArima,
    stepPredicted, stepHistory, stepRecent, AccidentDetector.get_or_create_suite,
    AccidentDetector.init, DetectorSuite.init, DetectorSuite.reset_detectors,
    CUSUMDetector.mkNew, SPRTDetector.mkNew, PageHinkleyDetector.mkNew,
    CUSUMDetector.update, SPRTDetector.update, PageHinkleyDetector.update,
    CUSUMDetector.reset, SPRTDetector.reset, PageHinkleyDetector.reset,
    ARIMAPredictor.update, ARIMAPredictor.predict, ARIMAPredictor.init,
    appendCap, lastN, List.replicate, List.cons_ne_nil, listMean, maxQ, minQ, pyOr, findSuite, upsert,
    round2, roundHalfEven, SPRTDecision.normal_ne_accident,
    SPRTDecision.cont_ne_accident, c2Ext, c2Gen, c2o, c2Obs,
    c2WarmSuite, c2WarmSt, c2WarmRes, c2SuiteA, c2StA, c2ResA,
    c2SuiteB, c2StB, c2ResB, c2SuiteC, c2StC, c2ResC,
    Config.NORMAL_SPEED_MEAN,
    Config.CUSUM_THRESHOLD, Config.CUSUM_DRIFT, Config.SPRT_THRESHOLD_UPPER,
    Config.SPRT_THRESHOLD_LOWER, Config.NORMAL_SPEED_STD,
    Config.ACCIDENT_SPEED_MEAN, Config.ACCIDENT_SPEED_STD,
    Config.PAGE_HINKLEY_THRESHOLD, Config.PAGE_HINKLEY_DELTA,
    Config.BUFFER_SIZE, Config.MIN_SAMPLES_FOR_DETECTION, Config.REQUIRE_VOTES]

theorem c2_step2 :
    (c2WarmSt 2).processOne c2Ext c2Gen (c2o 60 2) =
      (c2WarmSt 3, c2WarmRes 2) := by
  norm_num [AccidentDetector.processOne, stepSuite2, stepSuite1, stepSuite0,
    stepDetected, stepVotes, stepCusum, stepSprt, stepPh, stepArima,
    stepPredicted, stepHistory, stepRecent, AccidentDetector.get_or_create_suite,
    AccidentDetector.init, DetectorSuite.init, DetectorSuite.reset_detectors,
    CUSUMDetector.mkNew, SPRTDetector.mkNew, PageHinkleyDetector.mkNew,
    CUSUMDetector.update, SPRTDetector.update, PageHinkleyDetector.update,
    CUSUMDetector.reset, SPRTDetector.reset, PageHinkleyDetector.reset,
    ARIMAPredictor.update, ARIMAPredictor.predict, ARIMAPredictor.init,
    appendCap, lastN, List.replicate, List.cons_ne_nil, listMean, maxQ, minQ, pyOr, findSuite, upsert,
    round2, roundHalfEven, SPRTDecision.normal_ne_accident,
    SPRTDecision.cont_ne_accident, c2Ext, c2Gen, c2o, c2Obs,
    c2WarmSuite, c2WarmSt, c2WarmRes, c2SuiteA, c2StA, c2ResA,
    c2SuiteB, c2StB, c2ResB, c2SuiteC, c2StC, c2ResC,
    Config.NORMAL_SPEED_MEAN,
    Config.CUSUM_THRESHOLD, Config.CUSUM_DRIFT, Config.SPRT_THRESHOLD_UPPER,
    Config.SPRT_THRESHOLD_LOWER, Config.NORMAL_SPEED_STD,
    Config.ACCIDENT_SPEED_MEAN, Config.ACCIDENT_SPEED_STD,
    Config.PAGE_HINKLEY_THRESHOLD, Config.PAGE_HINKLEY_DELTA,
    Config.BUFFER_SIZE, Config.MIN_SAMPLES_FOR_DETECTION, Config.REQUIRE_VOTES]

theorem c2_step3 :
    (c2WarmSt 3).processOne c2Ext c2Gen (c2o 60 3) =
      (c2WarmSt 4, c2WarmRes 3) := by
  norm_num [AccidentDetector.processOne, stepSuite2, stepSuite1, stepSuite0,
    stepDetected, stepVotes, stepCusum, stepSprt, stepPh, stepArima,
    stepPredicted, stepHistory, stepRecent, AccidentDetector.get_or_create_suite,
    AccidentDetector.init, DetectorSuite.init, DetectorSuite.reset_detectors,
    CUSUMDetector.mkNew, SPRTDetector.mkNew, PageHinkleyDetector.mkNew,
    CUSUMDetector.update, SPRTDetector.update, PageHinkleyDetector.update,
    CUSUMDetector.reset, SPRTDetector.reset, PageHinkleyDetector.reset,
    ARIMAPredictor.update, ARIMAPredictor.predict, ARIMAPredictor.init,
    appendCap, lastN, List.replicate, List.cons_ne_nil, listMean, maxQ, minQ, pyOr, findSuite, upsert,
    round2, roundHalfEven, SPRTDecision.normal_ne_accident,
    SPRTDecision.cont_ne_accident, c2Ext, c2Gen, c2o, c2Obs,
    c2WarmSuite, c2WarmSt, c2WarmRes, c2SuiteA, c2StA, c2ResA,
    c2SuiteB, c2StB, c2ResB, c2SuiteC, c2StC, c2ResC,
    Config.NORMAL_SPEED_MEAN,
    Config.CUSUM_THRESHOLD, Config.CUSUM_DRIFT, Config.SPRT_THRESHOLD_UPPER,
    Config.SPRT_THRESHOLD_LOWER, Config.NORMAL_SPEED_STD,
    Config.ACCIDENT_SPEED_MEAN, Config.ACCIDENT_SPEED_STD,
    Config.PAGE_HINKLEY_THRESHOLD, Config.PAGE_HINKLEY_DELTA,
    Config.BUFFER_SIZE, Config.MIN_SAMPLES_FOR_DETECTION, Config.REQUIRE_VOTES]

theorem c2_step4 :
    (c2WarmSt 4).processOne c2Ext c2Gen (c2o 60 4) =
      (c2WarmSt 5, c2WarmRes 4) := by
  norm_num [AccidentDetector.processOne, stepSuite2, stepSuite1, stepSuite0,
    stepDetected, stepVotes, stepCusum, stepSprt, stepPh, stepArima,
    stepPredicted, stepHistory, stepRecent, AccidentDetector.get_or_create_suite,
    AccidentDetector.init, DetectorSuite.init, DetectorSuite.reset_detectors,
    CUSUMDetector.mkNew, SPRTDetector.mkNew, PageHinkleyDetector.mkNew,
    CUSUMDetector.update, SPRTDetector.update, PageHinkleyDetector.update,
    CUSUMDetector.reset, SPRTDetector.reset, PageHinkleyDetector.reset,
    ARIMAPredictor.update, ARIMAPredictor.predict, ARIMAPredictor.init,
    appendCap, lastN, List.replicate, List.cons_ne_nil, listMean, maxQ, minQ, pyOr, findSuite, upsert,
    round2, roundHalfEven, SPRTDecision.normal_ne_accident,
    SPRTDecision.cont_ne_accident, c2Ext, c2Gen, c2o, c2Obs,
    c2WarmSuite, c2WarmSt, c2WarmRes, c2SuiteA, c2StA, c2ResA,
    c2SuiteB, c2StB, c2ResB, c2SuiteC, c2StC, c2ResC,
    Config.NORMAL_SPEED_MEAN,
    Config.CUSUM_THRESHOLD, Config.CUSUM_DRIFT, Config.SPRT_THRESHOLD_UPPER,
    Config.SPRT_THRESHOLD_LOWER, Config.NORMAL_SPEED_STD,
    Config.ACCIDENT_SPEED_MEAN, Config.ACCIDENT_SPEED_STD,
    Config.PAGE_HINKLEY_THRESHOLD, Config.PAGE_HINKLEY_DELTA,
    Config.BUFFER_SIZE, Config.MIN_SAMPLES_FOR_DETECTION, Config.REQUIRE_VOTES]

theorem c2_step5 :
    (c2WarmSt 5).processOne c2Ext c2Gen (c2o 60 5) =
      (c2WarmSt 6, c2WarmRes 5) := by
  norm_num [AccidentDetector.processOne, stepSuite2, stepSuite1, stepSuite0,
    stepDetected, stepVotes, stepCusum, stepSprt, stepPh, stepArima,
    stepPredicted, stepHistory, stepRecent, AccidentDetector.get_or_create_suite,
    AccidentDetector.init, DetectorSuite.init, DetectorSuite.reset_detectors,
    CUSUMDetector.mkNew, SPRTDetector.mkNew, PageHinkleyDetector.mkNew,
    CUSUMDetector.update, SPRTDetector.update, PageHinkleyDetector.update,
    CUSUMDetector.reset, SPRTDetector.reset, PageHinkleyDetector.reset,
    ARIMAPredictor.update, ARIMAPredictor.predict, ARIMAPredictor.init,
    appendCap, lastN, List.replicate, List.cons_ne_nil, listMean, maxQ, minQ, pyOr, findSuite, upsert,
    round2, roundHalfEven, SPRTDecision.normal_ne_accident,
    SPRTDecision.cont_ne_accident, c2Ext, c2Gen, c2o, c2Obs,
    c2WarmSuite, c2WarmSt, c2WarmRes, c2SuiteA, c2StA, c2ResA,
    c2SuiteB, c2StB, c2ResB, c2SuiteC, c2StC, c2ResC,
    Config.NORMAL_SPEED_MEAN,
    Config.CUSUM_THRESHOLD, Config.CUSUM_DRIFT, Config.SPRT_THRESHOLD_UPPER,
    Config.SPRT_THRESHOLD_LOWER, Config.NORMAL_SPEED_STD,
    Config.ACCIDENT_SPEED_MEAN, Config.ACCIDENT_SPEED_STD,
    Config.PAGE_HINKLEY_THRESHOLD, Config.PAGE_HINKLEY_DELTA,
    Config.BUFFER_SIZE, Config.MIN_SAMPLES_FOR_DETECTION, Config.REQUIRE_VOTES]

theorem c2_step6 :
    (c2WarmSt 6).processOne c2Ext c2Gen (c2o 60 6) =
      (c2WarmSt 7, c2WarmRes 6) := by
  norm_num [AccidentDetector.processOne, stepSuite2, stepSuite1, stepSuite0,
    stepDetected, stepVotes, stepCusum, stepSprt, stepPh, stepArima,
    stepPredicted, stepHistory, stepRecent, AccidentDetector.get_or_create_suite,
    AccidentDetector.init, DetectorSuite.init, DetectorSuite.reset_detectors,
    CUSUMDetector.mkNew, SPRTDetector.mkNew, PageHinkleyDetector.mkNew,
    CUSUMDetector.update, SPRTDetector.update, PageHinkleyDetector.update,
    CUSUMDetector.reset, SPRTDetector.reset, PageHinkleyDetector.reset,
    ARIMAPredictor.update, ARIMAPredictor.predict, ARIMAPredictor.init,
    appendCap, lastN, List.replicate, List.cons_ne_nil, listMean, maxQ, minQ, pyOr, findSuite, upsert,
    round2, roundHalfEven, SPRTDecision.normal_ne_accident,
    SPRTDecision.cont_ne_accident, c2Ext, c2Gen, c2o, c2Obs,
    c2WarmSuite, c2WarmSt, c2WarmRes, c2SuiteA, c2StA, c2ResA,
    c2SuiteB, c2StB, c2ResB, c2SuiteC, c2StC, c2ResC,
    Config.NORMAL_SPEED_MEAN,
    Config.CUSUM_THRESHOLD, Config.CUSUM_DRIFT, Config.SPRT_THRESHOLD_UPPER,
    Config.SPRT_THRESHOLD_LOWER, Config.NORMAL_SPEED_STD,
    Config.ACCIDENT_SPEED_MEAN, Config.ACCIDENT_SPEED_STD,
    Config.PAGE_HINKLEY_THRESHOLD, Config.PAGE_HINKLEY_DELTA,
    Config.BUFFER_SIZE, Config.MIN_SAMPLES_FOR_DETECTION, Config.REQUIRE_VOTES]

theorem c2_step7 :
    (c2WarmSt 7).processOne c2Ext c2Gen (c2o 60 7) =
      (c2WarmSt 8, c2WarmRes 7) := by
  norm_num [AccidentDetector.processOne, stepSuite2, stepSuite1, stepSuite0,
    stepDetected, stepVotes, stepCusum, stepSprt, stepPh, stepArima,
    stepPredicted, stepHistory, stepRecent, AccidentDetector.get_or_create_suite,
    AccidentDetector.init, DetectorSuite.init, DetectorSuite.reset_detectors,
    CUSUMDetector.mkNew, SPRTDetector.mkNew, PageHinkleyDetector.mkNew,
    CUSUMDetector.update, SPRTDetector.update, PageHinkleyDetector.update,
    CUSUMDetector.reset, SPRTDetector.reset, PageHinkleyDetector.reset,
    ARIMAPredictor.update, ARIMAPredictor.predict, ARIMAPredictor.init,
    appendCap, lastN, List.replicate, List.cons_ne_nil, listMean, maxQ, minQ, pyOr, findSuite, upsert,
    round2, roundHalfEven, SPRTDecision.normal_ne_accident,
    SPRTDecision.cont_ne_accident, c2Ext, c2Gen, c2o, c2Obs,
    c2WarmSuite, c2WarmSt, c2WarmRes, c2SuiteA, c2StA, c2ResA,
    c2SuiteB, c2StB, c2ResB, c2SuiteC, c2StC, c2ResC,
    Config.NORMAL_SPEED_MEAN,
    Config.CUSUM_THRESHOLD, Config.CUSUM_DRIFT, Config.SPRT_THRESHOLD_UPPER,
    Config.SPRT_THRESHOLD_LOWER, Config.NORMAL_SPEED_STD,
    Config.ACCIDENT_SPEED_MEAN, Config.ACCIDENT_SPEED_STD,
    Config.PAGE_HINKLEY_THRESHOLD, Config.PAGE_HINKLEY_DELTA,
    Config.BUFFER_SIZE, Config.MIN_SAMPLES_FOR_DETECTION, Config.REQUIRE_VOTES]

theorem c2_step8 :
    (c2WarmSt 8).processOne c2Ext c2Gen (c2o 60 8) =
      (c2WarmSt 9, c2WarmRes 8) := by
  norm_num [AccidentDetector.processOne, stepSuite2, stepSuite1, stepSuite0,
    stepDetected, stepVotes, stepCusum, stepSprt, stepPh, stepArima,
    stepPredicted, stepHistory, stepRecent, AccidentDetector.get_or_create_suite,
    AccidentDetector.init, DetectorSuite.init, DetectorSuite.reset_detectors,
    CUSUMDetector.mkNew, SPRTDetector.mkNew, PageHinkleyDetector.mkNew,
    CUSUMDetector.update, SPRTDetector.update, PageHinkleyDetector.update,
    CUSUMDetector.reset, SPRTDetector.reset, PageHinkleyDetector.reset,
    ARIMAPredictor.update, ARIMAPredictor.predict, ARIMAPredictor.init,
    appendCap, lastN, List.replicate, List.cons_ne_nil, listMean, maxQ, minQ, pyOr, findSuite, upsert,
    round2, roundHalfEven, SPRTDecision.normal_ne_accident,
    SPRTDecision.cont_ne_accident, c2Ext, c2Gen, c2o, c2Obs,
    c2WarmSuite, c2WarmSt, c2WarmRes, c2SuiteA, c2StA, c2ResA,
    c2SuiteB, c2StB, c2ResB, c2SuiteC, c2StC, c2ResC,
    Config.NORMAL_SPEED_MEAN,
    Config.CUSUM_THRESHOLD, Config.CUSUM_DRIFT, Config.SPRT_THRESHOLD_UPPER,
    Config.SPRT_THRESHOLD_LOWER, Config.NORMAL_SPEED_STD,
    Config.ACCIDENT_SPEED_MEAN, Config.ACCIDENT_SPEED_STD,
    Config.PAGE_HINKLEY_THRESHOLD, Config.PAGE_HINKLEY_DELTA,
    Config.BUFFER_SIZE, Config.MIN_SAMPLES_FOR_DETECTION, Config.REQUIRE_VOTES]

theorem c2_step9 :
    (c2WarmSt 9).processOne c2Ext c2Gen (c2o 0 9) =
      (c2StA, c2ResA) := by
  norm_num [AccidentDetector.processOne, stepSuite2, stepSuite1, stepSuite0,
    stepDetected, stepVotes, stepCusum, stepSprt, stepPh, stepArima,
    stepPredicted, stepHistory, stepRecent, AccidentDetector.get_or_create_suite,
    AccidentDetector.init, DetectorSuite.init, DetectorSuite.reset_detectors,
    CUSUMDetector.mkNew, SPRTDetector.mkNew, PageHinkleyDetector.mkNew,
    CUSUMDetector.update, SPRTDetector.update, PageHinkleyDetector.update,
    CUSUMDetector.reset, SPRTDetector.reset, PageHinkleyDetector.reset,
    ARIMAPredictor.update, ARIMAPredictor.predict, ARIMAPredictor.init,
    appendCap, lastN, List.replicate, List.cons_ne_nil, listMean, maxQ, minQ, pyOr, findSuite, upsert,
    round2, roundHalfEven, SPRTDecision.normal_ne_accident,
    SPRTDecision.cont_ne_accident, c2Ext, c2Gen, c2o, c2Obs,
    c2WarmSuite, c2WarmSt, c2WarmRes, c2SuiteA, c2StA, c2ResA,
    c2SuiteB, c2StB, c2ResB, c2SuiteC, c2StC, c2ResC,
    Config.NORMAL_SPEED_MEAN,
    Config.CUSUM_THRESHOLD, Config.CUSUM_DRIFT, Config.SPRT_THRESHOLD_UPPER,
    Config.SPRT_THRESHOLD_LOWER, Config.NORMAL_SPEED_STD,
    Config.ACCIDENT_SPEED_MEAN, Config.ACCIDENT_SPEED_STD,
    Config.PAGE_HINKLEY_THRESHOLD, Config.PAGE_HINKLEY_DELTA,
    Config.BUFFER_SIZE, Config.MIN_SAMPLES_FOR_DETECTION, Config.REQUIRE_VOTES]

theorem c2_step10 :
    c2StA.processOne c2Ext c2Gen (c2o 1000 10) =
      (c2StB, c2ResB) := by
  norm_num [AccidentDetector.processOne, stepSuite2, stepSuite1, stepSuite0,
    stepDetected, stepVotes, stepCusum, stepSprt, stepPh, stepArima,
    stepPredicted, stepHistory, stepRecent, AccidentDetector.get_or_create_suite,
    AccidentDetector.init, DetectorSuite.init, DetectorSuite.reset_detectors,
    CUSUMDetector.mkNew, SPRTDetector.mkNew, PageHinkleyDetector.mkNew,
    CUSUMDetector.update, SPRTDetector.update, PageHinkleyDetector.update,
    CUSUMDetector.reset, SPRTDetector.reset, PageHinkleyDetector.reset,
    ARIMAPredictor.update, ARIMAPredictor.predict, ARIMAPredictor.init,
    appendCap, lastN, List.replicate, List.cons_ne_nil, listMean, maxQ, minQ, pyOr, findSuite, upsert,
    round2, roundHalfEven, SPRTDecision.normal_ne_accident,
    SPRTDecision.cont_ne_accident, c2Ext, c2Gen, c2o, c2Obs,
    c2WarmSuite, c2WarmSt, c2WarmRes, c2SuiteA, c2StA, c2ResA,
    c2SuiteB, c2StB, c2ResB, c2SuiteC, c2StC, c2ResC,
    Config.NORMAL_SPEED_MEAN,
    Config.CUSUM_THRESHOLD, Config.CUSUM_DRIFT, Config.SPRT_THRESHOLD_UPPER,
    Config.SPRT_THRESHOLD_LOWER, Config.NORMAL_SPEED_STD,
    Config.ACCIDENT_SPEED_MEAN, Config.ACCIDENT_SPEED_STD,
    Config.PAGE_HINKLEY_THRESHOLD, Config.PAGE_HINKLEY_DELTA,
    Config.BUFFER_SIZE, Config.MIN_SAMPLES_FOR_DETECTION, Config.REQUIRE_VOTES]

theorem c2_step11 :
    c2StB.processOne c2Ext c2Gen (c2o 0 11) =
      (c2StC, c2ResC) := by
  norm_num [AccidentDetector.processOne, stepSuite2, stepSuite1, stepSuite0,
    stepDetected, stepVotes, stepCusum, stepSprt, stepPh, stepArima,
    stepPredicted, stepHistory, stepRecent, AccidentDetector.get_or_create_suite,
    AccidentDetector.init, DetectorSuite.init, DetectorSuite.reset_detectors,
    CUSUMDetector.mkNew, SPRTDetector.mkNew, PageHinkleyDetector.mkNew,
    CUSUMDetector.update, SPRTDetector.update, PageHinkleyDetector.update,
    CUSUMDetector.reset, SPRTDetector.reset, PageHinkleyDetector.reset,
    ARIMAPredictor.update, ARIMAPredictor.predict, ARIMAPredictor.init,
    appendCap, lastN, List.replicate, List.cons_ne_nil, listMean, maxQ, minQ, pyOr, findSuite, upsert,
    round2, roundHalfEven, SPRTDecision.normal_ne_accident,
    SPRTDecision.cont_ne_accident, c2Ext, c2Gen, c2o, c2Obs,
    c2WarmSuite, c2WarmSt, c2WarmRes, c2SuiteA, c2StA, c2ResA,
    c2SuiteB, c2StB, c2ResB, c2SuiteC, c2StC, c2ResC,
    Config.NORMAL_SPEED_MEAN,
    Config.CUSUM_THRESHOLD, Config.CUSUM_DRIFT, Config.SPRT_THRESHOLD_UPPER,
    Config.SPRT_THRESHOLD_LOWER, Config.NORMAL_SPEED_STD,
    Config.ACCIDENT_SPEED_MEAN, Config.ACCIDENT_SPEED_STD,
    Config.PAGE_HINKLEY_THRESHOLD, Config.PAGE_HINKLEY_DELTA,
    Config.BUFFER_SIZE, Config.MIN_SAMPLES_FOR_DETECTION, Config.REQUIRE_VOTES]

/-- The full 12-observation run of the engine on the scenario. -/
theorem c2_run :
    AccidentDetector.process_speed c2Ext c2Gen AccidentDetector.init c2Obs =
      (c2StC,
       [c2WarmRes 0, c2WarmRes 1, c2WarmRes 2, c2WarmRes 3, c2WarmRes 4,
        c2WarmRes 5, c2WarmRes 6, c2WarmRes 7, c2WarmRes 8,
        c2ResA, c2ResB, c2ResC]) := by
  simp only [c2Obs, AccidentDetector.process_speed, c2_step0, c2_step1,
    c2_step2, c2_step3, c2_step4, c2_step5, c2_step6, c2_step7, c2_step8,
    c2_step9, c2_step10, c2_step11]

/-- C2 counterexample: on this concrete run (a legitimate behaviour of the
external libraries, with the random source drawing 5 twice), car "a"
undergoes an Idle-to-Active transition at observation 10 minting token
`acc_a_5`, is cleared back to Idle at observation 11, and undergoes a second
Idle-to-Active transition at observation 12 whose minted token is again
`acc_a_5` — NOT distinct from the token of the earlier activation, refuting
the claim as stated. -/
theorem C2_counterexample :
    ((AccidentDetector.process_speed c2Ext c2Gen AccidentDetector.init c2Obs).2.map
      fun r => (r.accident_detected, r.accident_active, r.accident_id)) =
    [(false, false, none), (false, false, none), (false, false, none),
     (false, false, none), (false, false, none), (false, false, none),
     (false, false, none), (false, false, none), (false, false, none),
     (true, true, some "acc_a_5"),
     (false, false, some "acc_a_5"),
     (true, true, some "acc_a_5")] := by
  rw [c2_run]
  decide

/-! ## Concrete scenario for C3: manual reset does not erase history -/

/-- Suite of car "a" after one observation at speed 0 (Page-Hinkley already
accumulated 58). -/
def c3SuiteA : DetectorSuite :=
  ⟨"a", ⟨[0]⟩, ⟨10, 2, 0, 60⟩, ⟨5, 1/5, 0, 60, 10, 15, 5⟩,
   ⟨8, 2, 58, 0, 60⟩, [c2o 0 0], false, none, none⟩

def c3StA : AccidentDetector := ⟨[("a", c3SuiteA)], 0⟩

/-- The same suite after `reset_car`: detector statistics zeroed, history
and predictor state retained. -/
def c3SuiteB : DetectorSuite :=
  ⟨"a", ⟨[0]⟩, ⟨10, 2, 0, 60⟩, ⟨5, 1/5, 0, 60, 10, 15, 5⟩,
   ⟨8, 2, 0, 0, 60⟩, [c2o 0 0], false, none, none⟩

def c3StB : AccidentDetector := ⟨[("a", c3SuiteB)], 0⟩

theorem c3_stepA :
    AccidentDetector.init.processOne c2Ext c2Gen (c2o 0 0) =
      (c3StA, ⟨"a", 0, 0, 0, 0, 0, 58, false, false, none, 33/100⟩) := by
  norm_num [AccidentDetector.processOne, stepSuite2, stepSuite1, stepSuite0,
    stepDetected, stepVotes, stepCusum, stepSprt, stepPh, stepArima,
    stepPredicted, stepHistory, stepRecent, AccidentDetector.get_or_create_suite,
    AccidentDetector.init, DetectorSuite.init, DetectorSuite.reset_detectors,
    CUSUMDetector.mkNew, SPRTDetector.mkNew, PageHinkleyDetector.mkNew,
    CUSUMDetector.update, SPRTDetector.update, PageHinkleyDetector.update,
    CUSUMDetector.reset, SPRTDetector.reset, PageHinkleyDetector.reset,
    ARIMAPredictor.update, ARIMAPredictor.predict, ARIMAPredictor.init,
    appendCap, lastN, List.replicate, List.cons_ne_nil, listMean, maxQ, minQ, pyOr, findSuite, upsert,
    round2, roundHalfEven, SPRTDecision.normal_ne_accident,
    SPRTDecision.cont_ne_accident, c2Ext, c2Gen, c2o, c3SuiteA, c3StA,
    Config.NORMAL_SPEED_MEAN,
    Config.CUSUM_THRESHOLD, Config.CUSUM_DRIFT, Config.SPRT_THRESHOLD_UPPER,
    Config.SPRT_THRESHOLD_LOWER, Config.NORMAL_SPEED_STD,
    Config.ACCIDENT_SPEED_MEAN, Config.ACCIDENT_SPEED_STD,
    Config.PAGE_HINKLEY_THRESHOLD, Config.PAGE_HINKLEY_DELTA,
    Config.BUFFER_SIZE, Config.MIN_SAMPLES_FOR_DETECTION, Config.REQUIRE_VOTES]

theorem c3_reset : c3StA.reset_car "a" = c3StB := by
  norm_num [AccidentDetector.reset_car, findSuite, upsert, c3StA, c3SuiteA,
    c3StB, c3SuiteB, DetectorSuite.reset_detectors, CUSUMDetector.reset,
    SPRTDetector.reset, PageHinkleyDetector.reset]

theorem c3_stepB :
    c3StB.processOne c2Ext c2Gen (c2o 60 1) =
      (⟨[("a", ⟨"a", ⟨[0, 60]⟩, ⟨10, 2, 0, 60⟩, ⟨5, 1/5, 0, 60, 10, 15, 5⟩,
          ⟨8, 2, -2, -2, 60⟩, [c2o 0 0, c2o 60 1], false, none, none⟩)], 0⟩,
       ⟨"a", 1, 60, 30, 0, 0, 0, false, false, none, 0⟩) := by
  norm_num [AccidentDetector.processOne, stepSuite2, stepSuite1, stepSuite0,
    stepDetected, stepVotes, stepCusum, stepSprt, stepPh, stepArima,
    stepPredicted, stepHistory, stepRecent, AccidentDetector.get_or_create_suite,
    AccidentDetector.init, DetectorSuite.init, DetectorSuite.reset_detectors,
    CUSUMDetector.mkNew, SPRTDetector.mkNew, PageHinkleyDetector.mkNew,
    CUSUMDetector.update, SPRTDetector.update, PageHinkleyDetector.update,
    CUSUMDetector.reset, SPRTDetector.reset, PageHinkleyDetector.reset,
    ARIMAPredictor.update, ARIMAPredictor.predict, ARIMAPredictor.init,
    appendCap, lastN, List.replicate, List.cons_ne_nil, listMean, maxQ, minQ, pyOr, findSuite, upsert,
    round2, roundHalfEven, SPRTDecision.normal_ne_accident,
    SPRTDecision.cont_ne_accident, c2Ext, c2Gen, c2o, c3StB, c3SuiteB,
    Config.NORMAL_SPEED_MEAN,
    Config.CUSUM_THRESHOLD, Config.CUSUM_DRIFT, Config.SPRT_THRESHOLD_UPPER,
    Config.SPRT_THRESHOLD_LOWER, Config.NORMAL_SPEED_STD,
    Config.ACCIDENT_SPEED_MEAN, Config.ACCIDENT_SPEED_STD,
    Config.PAGE_HINKLEY_THRESHOLD, Config.PAGE_HINKLEY_DELTA,
    Config.BUFFER_SIZE, Config.MIN_SAMPLES_FOR_DETECTION, Config.REQUIRE_VOTES]

theorem c3_stepF :
    AccidentDetector.init.processOne c2Ext c2Gen (c2o 60 1) =
      (⟨[("a", ⟨"a", ⟨[60]⟩, ⟨10, 2, 0, 60⟩, ⟨5, 1/5, 0, 60, 10, 15, 5⟩,
          ⟨8, 2, -2, -2, 60⟩, [c2o 60 1], false, none, none⟩)], 0⟩,
       ⟨"a", 1, 60, 60, 0, 0, 0, false, false, none, 0⟩) := by
  norm_num [AccidentDetector.processOne, stepSuite2, stepSuite1, stepSuite0,
    stepDetected, stepVotes, stepCusum, stepSprt, stepPh, stepArima,
    stepPredicted, stepHistory, stepRecent, AccidentDetector.get_or_create_suite,
    AccidentDetector.init, DetectorSuite.init, DetectorSuite.reset_detectors,
    CUSUMDetector.mkNew, SPRTDetector.mkNew, PageHinkleyDetector.mkNew,
    CUSUMDetector.update, SPRTDetector.update, PageHinkleyDetector.update,
    CUSUMDetector.reset, SPRTDetector.reset, PageHinkleyDetector.reset,
    ARIMAPredictor.update, ARIMAPredictor.predict, ARIMAPredictor.init,
    appendCap, lastN, List.replicate, List.cons_ne_nil, listMean, maxQ, minQ, pyOr, findSuite, upsert,
    round2, roundHalfEven, SPRTDecision.normal_ne_accident,
    SPRTDecision.cont_ne_accident, c2Ext, c2Gen, c2o,
    Config.NORMAL_SPEED_MEAN,
    Config.CUSUM_THRESHOLD, Config.CUSUM_DRIFT, Config.SPRT_THRESHOLD_UPPER,
    Config.SPRT_THRESHOLD_LOWER, Config.NORMAL_SPEED_STD,
    Config.ACCIDENT_SPEED_MEAN, Config.ACCIDENT_SPEED_STD,
    Config.PAGE_HINKLEY_THRESHOLD, Config.PAGE_HINKLEY_DELTA,
    Config.BUFFER_SIZE, Config.MIN_SAMPLES_FOR_DETECTION, Config.REQUIRE_VOTES]

/-- C3 counterexample: feed car "a" one observation at speed 0, call
`reset_car("a")`, then feed speed 60 — the produced `DetectionResult`
predicts 30 (the mean of the RETAINED history `[0, 60]`), whereas a
never-before-seen entity fed the same observation predicts 60; the two
result records differ, refuting bit-identical post-reset behaviour. -/
theorem C3_counterexample :
    (((AccidentDetector.init.processOne c2Ext c2Gen (c2o 0 0)).1.reset_car "a").processOne
        c2Ext c2Gen (c2o 60 1)).2.predicted_speed = 30 ∧
    (AccidentDetector.init.processOne c2Ext c2Gen (c2o 60 1)).2.predicted_speed = 60 ∧
    (((AccidentDetector.init.processOne c2Ext c2Gen (c2o 0 0)).1.reset_car "a").processOne
        c2Ext c2Gen (c2o 60 1)).2 ≠
      (AccidentDetector.init.processOne c2Ext c2Gen (c2o 60 1)).2 := by
  simp only [c3_stepA, c3_reset, c3_stepB, c3_stepF, ne_eq, Result.mk.injEq]
  norm_num

/-! ## Witnesses -/

/-- Witness for C1: the very first observation of a fresh entity (history
length 1) yields `accident_detected = false`. -/
theorem C1_witness :
    (stepHistory AccidentDetector.init (c2o 60 0)).length <
      Config.MIN_SAMPLES_FOR_DETECTION ∧
    (AccidentDetector.init.processOne c2Ext c2Gen (c2o 60 0)).2.accident_detected =
      false :=
  ⟨by decide,
   C1_warmup_forces_false c2Ext c2Gen AccidentDetector.init (c2o 60 0) (by decide)⟩

/-- Witness for C2 (amended): the activation at observation 10 of the
concrete scenario mints exactly the token of the next draw and advances the
stream position. -/
theorem C2_amended_witness :
    ((c2WarmSt 9).processOne c2Ext c2Gen (c2o 0 9)).2.accident_detected = true ∧
    (stepSuite0 (c2WarmSt 9) (c2o 0 9)).accident_active = false ∧
    (((c2WarmSt 9).processOne c2Ext c2Gen (c2o 0 9)).2.accident_id =
        some (mkToken (c2o 0 9).car_id (c2Gen (c2WarmSt 9).randIdx)) ∧
      (postSuite c2Ext c2Gen (c2WarmSt 9) (c2o 0 9)).accident_id =
        some (mkToken (c2o 0 9).car_id (c2Gen (c2WarmSt 9).randIdx)) ∧
      ((c2WarmSt 9).processOne c2Ext c2Gen (c2o 0 9)).1.randIdx =
        (c2WarmSt 9).randIdx + 1) := by
  have h1 : ((c2WarmSt 9).processOne c2Ext c2Gen (c2o 0 9)).2.accident_detected = true := by
    rw [c2_step9]
    decide
  have h2 : (stepSuite0 (c2WarmSt 9) (c2o 0 9)).accident_active = false := by
    simp [stepSuite0, AccidentDetector.get_or_create_suite, c2WarmSt, c2WarmSuite,
      findSuite, c2o]
  exact ⟨h1, h2, C2_amended_minted_token c2Ext c2Gen (c2WarmSt 9) (c2o 0 9) h1 h2⟩

/-- Witness for C3 (amended): resetting car "a" in the post-activation state
keeps its history, predictor state, token and start timestamp, and leaves
car "b" (absent) untouched. -/
theorem C3_amended_witness :
    findSuite c2StA.detectors "a" = some c2SuiteA ∧
    findSuite (c2StA.reset_car "a").detectors "a" =
      some (({ c2SuiteA with accident_active := false }).reset_detectors) ∧
    (({ c2SuiteA with accident_active := false }).reset_detectors).speed_history =
      c2SuiteA.speed_history ∧
    (({ c2SuiteA with accident_active := false }).reset_detectors).arima =
      c2SuiteA.arima ∧
    (({ c2SuiteA with accident_active := false }).reset_detectors).accident_id =
      c2SuiteA.accident_id ∧
    (({ c2SuiteA with accident_active := false }).reset_detectors).accident_start_time =
      c2SuiteA.accident_start_time ∧
    findSuite (c2StA.reset_car "a").detectors "b" = findSuite c2StA.detectors "b" := by
  have h : findSuite c2StA.detectors "a" = some c2SuiteA := by
    simp [c2StA, findSuite]
  have hm := C3_amended_reset_car c2StA "a" c2SuiteA h
  exact ⟨h, hm.1, hm.2.1, hm.2.2.1, hm.2.2.2.1, hm.2.2.2.2.1,
    hm.2.2.2.2.2 "b" (by decide)⟩

/-- Witness for C4: the clearance at observation 11 of the concrete scenario
satisfies all three guard conditions. -/
theorem C4_witness :
    (stepSuite0 c2StA (c2o 1000 10)).accident_active = true ∧
    (postSuite c2Ext c2Gen c2StA (c2o 1000 10)).accident_active = false ∧
    (5 ≤ (stepHistory c2StA (c2o 1000 10)).length ∧
      (c2StA.processOne c2Ext c2Gen (c2o 1000 10)).2.accident_detected = false ∧
      40 < listMean (stepRecent c2StA (c2o 1000 10))) := by
  have h1 : (stepSuite0 c2StA (c2o 1000 10)).accident_active = true := by
    simp [stepSuite0, AccidentDetector.get_or_create_suite, c2StA, c2SuiteA,
      findSuite, c2o]
  have h2 : (postSuite c2Ext c2Gen c2StA (c2o 1000 10)).accident_active = false := by
    simp only [postSuite]
    rw [c2_step10]
    simp [AccidentDetector.get_or_create_suite, c2StB, c2SuiteB, findSuite, c2o]
  exact ⟨h1, h2, C4_clearance_guard c2Ext c2Gen c2StA (c2o 1000 10) h1 h2⟩

/-- Witness for C5: the clearance at observation 11 of the concrete scenario
zeroes all three detector statistics and keeps the appended histories. -/
theorem C5_witness :
    (stepSuite0 c2StA (c2o 1000 10)).accident_active = true ∧
    (postSuite c2Ext c2Gen c2StA (c2o 1000 10)).accident_active = false ∧
    ((postSuite c2Ext c2Gen c2StA (c2o 1000 10)).cusum.cusum_stat = 0 ∧
      (postSuite c2Ext c2Gen c2StA (c2o 1000 10)).sprt.llr = 0 ∧
      (postSuite c2Ext c2Gen c2StA (c2o 1000 10)).page_hinkley.sum_diff = 0 ∧
      (postSuite c2Ext c2Gen c2StA (c2o 1000 10)).page_hinkley.min_sum = 0 ∧
      (postSuite c2Ext c2Gen c2StA (c2o 1000 10)).speed_history =
        stepHistory c2StA (c2o 1000 10) ∧
      (postSuite c2Ext c2Gen c2StA (c2o 1000 10)).arima =
        stepArima c2StA (c2o 1000 10)) := by
  have h1 : (stepSuite0 c2StA (c2o 1000 10)).accident_active = true := by
    simp [stepSuite0, AccidentDetector.get_or_create_suite, c2StA, c2SuiteA,
      findSuite, c2o]
  have h2 : (postSuite c2Ext c2Gen c2StA (c2o 1000 10)).accident_active = false := by
    simp only [postSuite]
    rw [c2_step10]
    simp [AccidentDetector.get_or_create_suite, c2StB, c2SuiteB, findSuite, c2o]
  exact ⟨h1, h2, C5_clearance_resets_detectors c2Ext c2Gen c2StA (c2o 1000 10) h1 h2⟩

/-- External-math oracle whose ARIMA fit always raises. -/
def extFitFail : ExternalMath := ⟨fun _ _ _ => 1, fun _ => 0, fun _ => none⟩

/-- Witness for C8: the three fallback branches of `predict` at concrete
histories. -/
theorem C8_witness :
    ARIMAPredictor.predict c2Ext ⟨[]⟩ = Config.NORMAL_SPEED_MEAN ∧
    ARIMAPredictor.predict c2Ext ⟨[50]⟩ = listMean [50] ∧
    ARIMAPredictor.predict extFitFail ⟨[1, 2, 3, 4, 5, 6, 7, 8, 9, 10, 11]⟩ =
      listMean (lastN 10 [1, 2, 3, 4, 5, 6, 7, 8, 9, 10, 11]) :=
  ⟨(C8_predict_total_fallbacks c2Ext ⟨[]⟩).1 rfl,
   (C8_predict_total_fallbacks c2Ext ⟨[50]⟩).2.1 (by decide) (by decide),
   (C8_predict_total_fallbacks extFitFail
     ⟨[1, 2, 3, 4, 5, 6, 7, 8, 9, 10, 11]⟩).2.2 (by decide) rfl⟩

/-- Witness for C10: the clearance step of the concrete scenario (not an
activation) carries the stored token through, and the administrative resets
preserve car "a"'s token and start timestamp. -/
theorem C10_witness :
    ((c2StA.processOne c2Ext c2Gen (c2o 1000 10)).2.accident_id =
      (postSuite c2Ext c2Gen c2StA (c2o 1000 10)).accident_id) ∧
    (¬(stepDetected c2Ext c2StA (c2o 1000 10) = true ∧
        (stepSuite0 c2StA (c2o 1000 10)).accident_active = false)) ∧
    ((postSuite c2Ext c2Gen c2StA (c2o 1000 10)).accident_id =
        (stepSuite0 c2StA (c2o 1000 10)).accident_id ∧
      (postSuite c2Ext c2Gen c2StA (c2o 1000 10)).accident_start_time =
        (stepSuite0 c2StA (c2o 1000 10)).accident_start_time) ∧
    ((findSuite (c2StA.reset_car "a").detectors "a").map DetectorSuite.accident_id =
        some c2SuiteA.accident_id ∧
      (findSuite (c2StA.reset_car "a").detectors "a").map
          DetectorSuite.accident_start_time =
        some c2SuiteA.accident_start_time) ∧
    ((c2StA.reset_all).detectors.map
        (fun kv => (kv.1, kv.2.accident_id, kv.2.accident_start_time)) =
      c2StA.detectors.map
        (fun kv => (kv.1, kv.2.accident_id, kv.2.accident_start_time))) := by
  have hsd : stepDetected c2Ext c2StA (c2o 1000 10) = false := by
    rw [← processOne_detected c2Ext c2Gen c2StA (c2o 1000 10), c2_step10]
    decide
  have hno : ¬(stepDetected c2Ext c2StA (c2o 1000 10) = true ∧
      (stepSuite0 c2StA (c2o 1000 10)).accident_active = false) := by
    simp [hsd]
  have hm := C10_token_survives c2Ext c2Gen c2StA (c2o 1000 10)
  exact ⟨hm.1, hno, hm.2.1 hno,
    hm.2.2.1 c2StA "a" c2SuiteA (by simp [c2StA, findSuite]),
    hm.2.2.2 c2StA⟩

end AccSys
